import Mathlib

/-!
Verification development for the stone-pricing application's scoring and
price-estimation core.

The definitions below are a shallow embedding of the Python sources:

* `src/utils/scoring.py` — `normalize_stone_name`, `get_stone_base_type`,
  `generate_product_code`, `calculate_priority_score` (with its inner
  `score_row` decomposed into one definition per additive factor).
* `src/utils/ui_helpers.py` — `calculate_prediction_results`.
* `src/components/processing_stage.py` — `apply_price_transformation`,
  the regression-fitting condition of `create_scatter_plot`, and the
  prediction branch of `render_processing_stage`.
* `src/app7.py` — the height-proximity block of its `score_row`.
* `src/app6.py` — `calculate_lwDistance_score`.

Modelling conventions: Python floats are modelled as `ℚ` (every literal in
the scoring code is a decimal fraction and no claim depends on rounding);
nullable cells (`NaN`) are `Option` values; a Python exception that escapes
a function is `Except.error`.  `str.upper`/`isalpha` are modelled on ASCII
(all inputs relevant to the claims are ASCII).  A pandas dataframe is a
record of a row list plus the three columns that `calculate_priority_score`
assigns in place.  `df.sort_values('priority_score', ascending=False)`
runs with pandas' default `kind='quicksort'`, which pandas documents as
not stable, so the program guarantees nothing about the relative order of
rows with equal scores; the sort is therefore modelled as an abstract
function argument of `calculate_priority_score`, constrained in the
theorems only by the documented sort contract `sort_contract` (the output
is a permutation of the input rows, non-increasing in `priority_score`) —
no tie order is assumed.  `insertionSortDesc` is one concrete function
satisfying that contract, used only to instantiate witnesses.
-/

namespace StoneApp

/-- One whitespace-collapsing pass: model of `re.sub(r'\s+', ' ', s)`
(applied after `strip`, so runs are internal). -/
def collapseWS : List Char → Bool → List Char
  | [], _ => []
  | c :: cs, prev =>
    if c.isWhitespace then
      if prev then collapseWS cs true else (' ' : Char) :: collapseWS cs true
    else c :: collapseWS cs false

/-- Python `str.strip()`: drop leading and trailing whitespace. -/
def trimChars (l : List Char) : List Char :=
  ((l.dropWhile Char.isWhitespace).reverse.dropWhile Char.isWhitespace).reverse

/-- `str(s).strip().upper()` followed by whitespace collapsing, on a plain
string (string functions are implemented on the character list so that
they evaluate). -/
def normalizeStr (s : String) : String :=
  String.mk (collapseWS ((trimChars s.data).map Char.toUpper) false)

/-- `normalize_stone_name` from `src/utils/scoring.py`: `pd.isna` values
normalize to the empty string. -/
def normalize_stone_name : Option String → String
  | none => ""
  | some s => normalizeStr s

/-- `get_stone_base_type` from `src/utils/scoring.py`: the first matching
known family prefix, else the first whitespace token of the normalized
name, else the normalized name itself. -/
def get_stone_base_type (stone_name : Option String) : String :=
  let normalized := normalize_stone_name stone_name
  if "BAZAN".data.isPrefixOf normalized.data then "BAZAN"
  else if "BLUESTONE".data.isPrefixOf normalized.data then "BLUESTONE"
  else if "GRANITE".data.isPrefixOf normalized.data then "GRANITE"
  else
    match normalized.data with
    | [] => normalized
    | _ :: _ => String.mk (normalized.data.takeWhile (fun c => !(c == ' ')))

/-- One catalogue row, with the columns `calculate_priority_score` and the
estimator read.  Numeric columns were coerced by the loader, so a cell is
either a rational or null. -/
structure Row where
  loai_da : Option String
  gia_cong : Option String
  H : Option ℚ
  W : Option ℚ
  L : Option ℚ
  usd_m3 : Option ℚ
deriving DecidableEq, Repr

/-- Stone-type factor of `score_row` (`da_map` tiers Ư1/Ư2/Ư3, worth
30/25/20).  `input_stone` and `input_base` are the precomputed normalized
query stone and its base type. -/
def stone_score (input_stone input_base : String) (x : Option String) : ℕ :=
  if normalize_stone_name x = input_stone then 30
  else if get_stone_base_type x = input_base ∧ normalize_stone_name x ≠ input_stone then 25
  else 20

/-- Processing-method factor of `score_row` (`gc_map` tiers Ư1/Ư2, worth
20/15). -/
def processing_score (input_processing : String) (x : Option String) : ℕ :=
  if normalize_stone_name x = input_processing then 20 else 15

/-- Height factor of `score_row` (`cao_map` tiers Ư1/Ư2/Ư3, worth 15/12/9;
a null or farther-than-2 height contributes 0). -/
def height_score (height : ℚ) (v : Option ℚ) : ℕ :=
  match v with
  | none => 0
  | some h =>
    if |h - height| < 1/100 then 15
    else if |h - height| ≤ 1 then 12
    else if |h - height| ≤ 2 then 9
    else 0

/-- Width factor of `score_row` (`rong_map` tiers Ư1/Ư2/Ư3, worth 9/6/3;
scored only when the query supplies a width). -/
def width_score (width : Option ℚ) (v : Option ℚ) : ℕ :=
  match width with
  | none => 0
  | some w =>
    match v with
    | none => 0
    | some x =>
      if |x - w| < 1/100 then 9
      else if |x - w| ≤ 5 then 6
      else if |x - w| ≤ 10 then 3
      else 0

/-- Length factor of `score_row` (`dai_map` tiers Ư1/Ư2/Ư3, worth 3/2/1;
scored only when the query supplies a length). -/
def length_score (length : Option ℚ) (v : Option ℚ) : ℕ :=
  match length with
  | none => 0
  | some l =>
    match v with
    | none => 0
    | some x =>
      if |x - l| < 1/100 then 3
      else if |x - l| ≤ 10 then 2
      else if |x - l| ≤ 20 then 1
      else 0

/-- The inner `score_row` of `calculate_priority_score`
(`src/utils/scoring.py` lines 81–135): the sum of the five additive
factors. -/
def score_row (input_stone input_base input_processing : String) (height : ℚ)
    (width length : Option ℚ) (r : Row) : ℕ :=
  stone_score input_stone input_base r.loai_da
    + processing_score input_processing r.gia_cong
    + height_score height r.H
    + width_score width r.W
    + length_score length r.L

/-- Python `str(x)` on a possibly-`NaN` cell: `str(nan)` is `"nan"`. -/
def pyStr : Option String → String
  | none => "nan"
  | some s => s

/-- Truncation toward zero, the semantics of Python `int(float)`. -/
def truncQ (q : ℚ) : ℤ :=
  if q < 0 then -(⌊-q⌋) else ⌊q⌋

/-- Python `int(cell)` on a numeric cell: `int(nan)` raises
`ValueError: cannot convert float NaN to integer`. -/
def pyInt : Option ℚ → Except String ℤ
  | none => Except.error "cannot convert float NaN to integer"
  | some q => Except.ok (truncQ q)

/-- Python `f"{i:03d}"` for a list index. -/
def pad3 (i : ℕ) : String :=
  if i < 10 then "00" ++ toString i
  else if i < 100 then "0" ++ toString i
  else toString i

/-- `generate_product_code` from `src/utils/scoring.py`: alphabetic
characters of the first 3 (resp. 2) uppercased characters of the stone
(resp. processing) string, the integer-truncated H/W/L concatenated, and
the zero-padded row index.  Raises (`Except.error`) when any of H, W, L is
null, because `int(row['H'])` does. -/
def generate_product_code (r : Row) (index : ℕ) : Except String String := do
  let stone_code := String.mk ((((pyStr r.loai_da).data.take 3).map Char.toUpper).filter Char.isAlpha)
  let processing_code := String.mk ((((pyStr r.gia_cong).data.take 2).map Char.toUpper).filter Char.isAlpha)
  let h ← pyInt r.H
  let w ← pyInt r.W
  let l ← pyInt r.L
  let size_code := toString h ++ toString w ++ toString l
  return stone_code ++ "-" ++ processing_code ++ "-" ++ size_code ++ "-" ++ pad3 index

/-- The product-code list comprehension of `calculate_priority_score`
(`[generate_product_code(row, i) for i, (_, row) in enumerate(df.iterrows())]`):
the first failing row's exception escapes. -/
def gen_codes : List Row → ℕ → Except String (List String)
  | [], _ => Except.ok []
  | r :: rs, i => do
    let c ← generate_product_code r i
    let cs ← gen_codes rs (i + 1)
    return c :: cs

/-- The inner `get_match_type` of `calculate_priority_score`
(`src/utils/scoring.py` lines 144–151). -/
def get_match_type (input_stone input_base : String) (x : Option String) : String :=
  if input_stone = normalize_stone_name x then "Exact Match"
  else if get_stone_base_type x = input_base then "Same Base Type (" ++ input_base ++ ")"
  else "Different Stone Type (" ++ get_stone_base_type x ++ ")"

/-- A row of the frame returned by `calculate_priority_score`: the original
cells plus the three columns the function assigns. -/
structure AnnRow where
  row : Row
  priority_score : ℕ
  product_code : String
  stone_match_type : String
deriving DecidableEq, Repr

/-- Zip the original rows with the three per-row column values computed by
`calculate_priority_score` (all four lists have the frame's length). -/
def annotate : List Row → List ℕ → List String → List String → List AnnRow
  | r :: rs, s :: ss, c :: cs, m :: ms => ⟨r, s, c, m⟩ :: annotate rs ss cs ms
  | _, _, _, _ => []

/-- The annotation phase of `calculate_priority_score`
(`src/utils/scoring.py` lines 33–153), producing the rows in original
dataset order: the normalized query values, the `score_row` pass, the
product-code comprehension (which may raise), and the `get_match_type`
pass. -/
def annotateDF (rows : List Row) (stone_type processing_type : String)
    (height : ℚ) (width length : Option ℚ) : Except String (List AnnRow) := do
  let input_stone := normalize_stone_name (some stone_type)
  let input_base := get_stone_base_type (some input_stone)
  let input_processing := normalize_stone_name (some processing_type)
  let scores := rows.map (score_row input_stone input_base input_processing height width length)
  let codes ← gen_codes rows 0
  let match_types := rows.map (fun r => get_match_type input_stone input_base r.loai_da)
  return annotate rows scores codes match_types

/-- A pandas dataframe as the scorer sees it: the rows handed in by the
caller plus the three columns the scorer assigns in place (absent —
`none` — on a freshly loaded frame). -/
structure DataFrame where
  rows : List Row
  priority_score : Option (List ℕ) := none
  product_code : Option (List String) := none
  stone_match_type : Option (List String) := none
deriving DecidableEq, Repr

/-- The in-place column assignments `df['priority_score'] = ...`,
`df['product_code'] = ...`, `df['stone_match_type'] = ...` performed on
the caller's frame. -/
def mutate (df : DataFrame) (ann : List AnnRow) : DataFrame :=
  { df with
    priority_score := some (ann.map AnnRow.priority_score)
    product_code := some (ann.map AnnRow.product_code)
    stone_match_type := some (ann.map AnnRow.stone_match_type) }

/-- The documented contract of `df.sort_values('priority_score',
ascending=False)`: the result is a permutation of the input rows,
non-increasing in `priority_score`.  Pandas' default `kind='quicksort'` is
documented as not stable, so nothing about the relative order of equal
scores is part of the contract. -/
def sort_contract (sort_values : List AnnRow → List AnnRow) : Prop :=
  ∀ l : List AnnRow, List.Perm (sort_values l) l
    ∧ (sort_values l).Pairwise (fun a b => b.priority_score ≤ a.priority_score)

/-- Insert a row in front of the first element whose score is not larger:
one step of `insertionSortDesc`. -/
def insertDesc (x : AnnRow) : List AnnRow → List AnnRow
  | [] => [x]
  | y :: ys =>
    if y.priority_score ≤ x.priority_score then x :: y :: ys
    else y :: insertDesc x ys

/-- One concrete function satisfying `sort_contract`, used to instantiate
the abstract sort argument in witnesses.  This is not a claim about the
tie behaviour of the program's quicksort. -/
def insertionSortDesc : List AnnRow → List AnnRow
  | [] => []
  | x :: xs => insertDesc x (insertionSortDesc xs)

/-- `calculate_priority_score` from `src/utils/scoring.py`: annotates the
caller's frame in place (the first component of the result is the caller's
frame after the call) and returns the frame reordered by
`df.sort_values('priority_score', ascending=False)` (the second
component).  The sort runs with pandas' default unstable kind and is
abstracted as the `sort_values` argument (see the header comment);
theorems constrain it by `sort_contract` where its behaviour matters.
Propagates the exception of `generate_product_code` when a row has a null
H, W or L. -/
def calculate_priority_score (sort_values : List AnnRow → List AnnRow) (df : DataFrame)
    (stone_type processing_type : String) (height : ℚ) (width length : Option ℚ) :
    Except String (DataFrame × List AnnRow) := do
  let ann ← annotateDF df.rows stone_type processing_type height width length
  return (mutate df ann, sort_values ann)

/-- Minimum of a nonempty rational list (pandas `Series.min`; the empty
case is never reached by the code and defaults to 0). -/
def listMin : List ℚ → ℚ
  | [] => 0
  | x :: xs => xs.foldl min x

/-- Maximum of a nonempty rational list (pandas `Series.max`). -/
def listMax : List ℚ → ℚ
  | [] => 0
  | x :: xs => xs.foldl max x

/-- The result record of `calculate_prediction_results`. -/
structure PredictionResults where
  avg_price : ℚ
  min_price : ℚ
  max_price : ℚ
  confidence : ℕ
deriving DecidableEq, Repr

/-- `calculate_prediction_results` from `src/utils/ui_helpers.py`:
`dropna` the `usd_m3` column, return `None` when nothing is left, else the
mean/min/max of the remaining prices and `min(95, n * 10)` confidence. -/
def calculate_prediction_results (filtered_df : List Row) : Option PredictionResults :=
  let valid_prices := filtered_df.filterMap Row.usd_m3
  if valid_prices.length = 0 then none
  else
    some
      { avg_price := valid_prices.sum / valid_prices.length
        min_price := listMin valid_prices
        max_price := listMax valid_prices
        confidence := min 95 (valid_prices.length * 10) }

/-- A fitted three-feature linear model (the state of a fitted
`sklearn.linear_model.LinearRegression` on `['priority_score','W','L']`). -/
structure LinearModel3 where
  intercept : ℚ
  coef_score : ℚ
  coef_W : ℚ
  coef_L : ℚ
deriving DecidableEq, Repr

/-- `lr.predict` on one feature vector. -/
def predict3 (m : LinearModel3) (s w l : ℚ) : ℚ :=
  m.intercept + m.coef_score * s + m.coef_W * w + m.coef_L * l

/-- `apply_price_transformation` from `src/components/processing_stage.py`:
`raw_price + (7 * 10) / 0.8`. -/
def apply_price_transformation (raw_price : ℚ) : ℚ :=
  raw_price + (7 * 10) / (8/10)

/-- `filtered_df.dropna(subset=['priority_score', 'W', 'L', 'usd_m3'])` in
`create_scatter_plot` (`priority_score` is never null after scoring). -/
def cleanRows (filtered : List AnnRow) : List AnnRow :=
  filtered.filter (fun a => a.row.W.isSome && a.row.L.isSome && a.row.usd_m3.isSome)

/-- `filtered_df['priority_score'].max()` (pandas max of a nonempty
column; defaults to 0 on an empty frame, which the code never reaches). -/
def max_priority : List AnnRow → ℕ
  | [] => 0
  | x :: xs => xs.foldl (fun m a => max m a.priority_score) x.priority_score

/-- The model-fitting condition of `create_scatter_plot`
(`src/components/processing_stage.py` lines 37–47): a model is fitted and
stored exactly when the frame has more than one row, not every `usd_m3` is
null, and more than 3 rows survive the four-column `dropna`.  The fit
itself is `sklearn`'s ordinary-least-squares `LinearRegression.fit`,
passed in abstractly as `fit`. -/
def fitted_model (fit : List AnnRow → LinearModel3) (filtered : List AnnRow) :
    Option LinearModel3 :=
  if 1 < filtered.length ∧ filtered.all (fun a => a.row.usd_m3.isNone) = false
      ∧ 3 < (cleanRows filtered).length then
    some (fit (cleanRows filtered))
  else none

/-- Python truthiness of a numeric session value: `None` and `0` are
falsy. -/
def truthyQ : Option ℚ → Bool
  | none => false
  | some q => q != 0

/-- The outcome of the prediction branch of `render_processing_stage`. -/
inductive PredictionOutcome where
  | regression (price : ℚ)
  | statistical (res : Option PredictionResults)
deriving DecidableEq, Repr

/-- The prediction branch of `render_processing_stage`
(`src/components/processing_stage.py` lines 174–209): when a model was
fitted for this frame and the query's width and length are truthy, predict
at (max priority score of the frame, query width, query length) and apply
the price transformation; otherwise fall back to
`calculate_prediction_results`. -/
def render_prediction (fit : List AnnRow → LinearModel3) (filtered : List AnnRow)
    (width length : Option ℚ) : PredictionOutcome :=
  match fitted_model fit filtered with
  | some m =>
    if truthyQ width && truthyQ length then
      let input_priority : ℚ := (max_priority filtered : ℚ)
      PredictionOutcome.regression
        (apply_price_transformation
          (predict3 m input_priority (width.getD 0) (length.getD 0)))
    else PredictionOutcome.statistical (calculate_prediction_results (filtered.map AnnRow.row))
  | none => PredictionOutcome.statistical (calculate_prediction_results (filtered.map AnnRow.row))

/-- The height-proximity block of `score_row` in `src/app7.py`
(lines 150–161): `height_diff = abs(H - height) if notna else 100`, then
tiers `< 0.1` → 30, `≤ 1` → 25, `≤ 2` → 20, `≤ 5` → 15, else 5. -/
def app7_height_score (v : Option ℚ) (height : ℚ) : ℕ :=
  let height_diff := match v with
    | some h => |h - height|
    | none => (100 : ℚ)
  if height_diff < 1/10 then 30
  else if height_diff ≤ 1 then 25
  else if height_diff ≤ 2 then 20
  else if height_diff ≤ 5 then 15
  else 5

/-- The tier selection exactly as claim C4 words it: four proximity tiers
of absolute difference — effectively equal (< 0.01), within 1, within 2,
within 5 — and a fifth default band for anything farther.  Written from
the claim, to be compared against the code's tier functions. -/
def claim_height_tier (d : ℚ) : ℕ :=
  if d < 1/100 then 1
  else if d ≤ 1 then 2
  else if d ≤ 2 then 3
  else if d ≤ 5 then 4
  else 5

/-- `calculate_lwDistance_score` from `src/app6.py` (lines 298–332): a
step function of the absolute difference between the candidate's own width
and length.  For numeric inputs the `try` body cannot raise. -/
def calculate_lwDistance_score (row_w row_l : ℚ) (max_score : ℚ) : ℚ :=
  let difference := |row_l - row_w|
  if difference < 1 then max_score
  else if difference ≤ 5 then max_score * (95/100)
  else if difference ≤ 10 then max_score * (85/100)
  else if difference ≤ 20 then max_score * (70/100)
  else if difference ≤ 30 then max_score * (55/100)
  else if difference ≤ 50 then max_score * (40/100)
  else if difference ≤ 75 then max_score * (25/100)
  else if difference ≤ 100 then max_score * (15/100)
  else max_score * (5/100)

/-! Concrete frames and queries used by the closed theorems below. -/

/-- A row identical to the query `("GRANITE", "FLAMED", 8, 20, 30)`. -/
def c1Row : Row := ⟨some "GRANITE", some "FLAMED", some 8, some 20, some 30, none⟩

/-- A two-row frame whose rows tie at the maximal score 77. -/
def c1Df : DataFrame := ⟨[c1Row, c1Row], none, none, none⟩

/-- The annotation `calculate_priority_score` computes for `c1Df`. -/
def c1Ann : List AnnRow :=
  [⟨c1Row, 77, "GRA-FL-82030-000", "Exact Match"⟩,
   ⟨c1Row, 77, "GRA-FL-82030-001", "Exact Match"⟩]

/-- A non-empty frame containing a row with a null height. -/
def c1NullDf : DataFrame :=
  ⟨[⟨some "BAZAN", some "HONED", none, some 20, some 30, some 50⟩], none, none, none⟩

/-- A row with a null height but valid width, length and price. -/
def c5Row : Row := ⟨some "GRANITE", some "FLAMED", none, some 20, some 30, some 12⟩

/-- A one-row frame matching the query `("BLUESTONE", "POLISHED", 10, 15, 25)`. -/
def c8Row : Row := ⟨some "BLUESTONE", some "POLISHED", some 10, some 15, some 25, some 100⟩

/-- The frame handed to the scorer in the C8 theorems. -/
def c8Df : DataFrame := ⟨[c8Row], none, none, none⟩

/-- The annotation `calculate_priority_score` computes for `c8Df`. -/
def c8Ann : List AnnRow := [⟨c8Row, 77, "BLU-PO-101525-000", "Exact Match"⟩]

/-- The caller's frame after the scoring call on `c8Df`: the three columns
have been assigned. -/
def c8Mutated : DataFrame :=
  ⟨[c8Row], some [77], some ["BLU-PO-101525-000"], some ["Exact Match"]⟩

/-- A concrete stand-in for `sklearn`'s fitted model: predicts the priority
score itself. -/
def c2Fit : List AnnRow → LinearModel3 := fun _ => ⟨0, 1, 0, 0⟩

/-- Four scored rows, all with non-null width, length and price, with
maximal priority score 70. -/
def c2Rows : List AnnRow :=
  [⟨⟨some "GRANITE", some "FLAMED", some 8, some 20, some 30, some 100⟩, 50, "", ""⟩,
   ⟨⟨some "GRANITE", some "FLAMED", some 8, some 21, some 31, some 110⟩, 60, "", ""⟩,
   ⟨⟨some "GRANITE", some "FLAMED", some 8, some 22, some 32, some 120⟩, 70, "", ""⟩,
   ⟨⟨some "GRANITE", some "FLAMED", some 8, some 23, some 33, some 130⟩, 40, "", ""⟩]

/-- The three-row subset of the spec's end-to-end scenario: prices
10.0, 12.0 and null. -/
def c3Rows : List Row :=
  [⟨none, none, none, none, none, some 10⟩,
   ⟨none, none, none, none, none, some 12⟩,
   ⟨none, none, none, none, none, none⟩]

/-- A one-row subset with a single valid price. -/
def c3RowsOne : List Row := [⟨none, none, none, none, none, some 7⟩]

/-- A row matching the query `("GRANITE WHITE", "FLAMED", 8)` only up to
normalization (case and internal whitespace differ). -/
def c7Row : Row := ⟨some "granite  white", some " flamed ", some 8, none, none, none⟩

deriving instance DecidableEq for Except

theorem mem_insertDesc {z x : AnnRow} {l : List AnnRow} :
    z ∈ insertDesc x l ↔ z = x ∨ z ∈ l := by
  induction l with
  | nil => simp [insertDesc]
  | cons y ys ih =>
    simp only [insertDesc]
    split
    · simp [List.mem_cons]
    · simp only [List.mem_cons, ih]
      tauto

theorem pairwise_insertDesc {x : AnnRow} {l : List AnnRow}
    (h : l.Pairwise (fun a b => b.priority_score ≤ a.priority_score)) :
    (insertDesc x l).Pairwise (fun a b => b.priority_score ≤ a.priority_score) := by
  induction l with
  | nil => simp [insertDesc]
  | cons y ys ih =>
    rcases List.pairwise_cons.mp h with ⟨hy, hys⟩
    simp only [insertDesc]
    split
    · rename_i hle
      refine List.pairwise_cons.mpr ⟨?_, h⟩
      intro z hz
      rcases List.mem_cons.mp hz with rfl | hz'
      · exact hle
      · exact le_trans (hy z hz') hle
    · rename_i hgt
      refine List.pairwise_cons.mpr ⟨?_, ih hys⟩
      intro z hz
      rcases mem_insertDesc.mp hz with rfl | hz'
      · omega
      · exact hy z hz'

theorem pairwise_insertionSortDesc (l : List AnnRow) :
    (insertionSortDesc l).Pairwise (fun a b => b.priority_score ≤ a.priority_score) := by
  induction l with
  | nil => simp [insertionSortDesc]
  | cons x xs ih => exact pairwise_insertDesc ih

theorem perm_insertDesc (x : AnnRow) (l : List AnnRow) :
    List.Perm (insertDesc x l) (x :: l) := by
  induction l with
  | nil => simp [insertDesc]
  | cons y ys ih =>
    simp only [insertDesc]
    split
    · exact List.Perm.refl _
    · exact (List.Perm.cons y ih).trans (List.Perm.swap x y ys)

theorem perm_insertionSortDesc (l : List AnnRow) :
    List.Perm (insertionSortDesc l) l := by
  induction l with
  | nil => simp [insertionSortDesc]
  | cons x xs ih =>
    exact (perm_insertDesc x (insertionSortDesc xs)).trans (List.Perm.cons x ih)

theorem insertionSortDesc_contract : sort_contract insertionSortDesc :=
  fun l => ⟨perm_insertionSortDesc l, pairwise_insertionSortDesc l⟩

theorem gen_codes_length : ∀ (rows : List Row) (i : ℕ) (cs : List String),
    gen_codes rows i = Except.ok cs → cs.length = rows.length := by
  intro rows
  induction rows with
  | nil =>
    intro i cs h
    simp only [gen_codes] at h
    cases h
    rfl
  | cons r rs ih =>
    intro i cs h
    simp only [gen_codes] at h
    cases hg : generate_product_code r i with
    | error e => rw [hg] at h; exact absurd h (by simp [Bind.bind, Except.bind])
    | ok c =>
      rw [hg] at h
      cases hr : gen_codes rs (i + 1) with
      | error e => rw [hr] at h; exact absurd h (by simp [Bind.bind, Except.bind])
      | ok cs' =>
        rw [hr] at h
        simp only [Bind.bind, Except.bind, pure, Except.pure, Except.ok.injEq] at h
        subst h
        simp [ih _ _ hr]

theorem annotate_length : ∀ (rs : List Row) (ss : List ℕ) (cs ms : List String),
    ss.length = rs.length → cs.length = rs.length → ms.length = rs.length →
    (annotate rs ss cs ms).length = rs.length := by
  intro rs
  induction rs with
  | nil => intro ss cs ms _ _ _; rfl
  | cons r rs ih =>
    intro ss cs ms hs hc hm
    cases ss with
    | nil => simp at hs
    | cons s ss =>
      cases cs with
      | nil => simp at hc
      | cons c cs =>
        cases ms with
        | nil => simp at hm
        | cons m ms =>
          simp only [annotate, List.length_cons]
          rw [ih ss cs ms (by simpa using hs) (by simpa using hc) (by simpa using hm)]

theorem annotateDF_length {rows : List Row} {stone_type processing_type : String}
    {height : ℚ} {width length : Option ℚ} {ann : List AnnRow}
    (h : annotateDF rows stone_type processing_type height width length = Except.ok ann) :
    ann.length = rows.length := by
  simp only [annotateDF] at h
  cases hg : gen_codes rows 0 with
  | error e => rw [hg] at h; exact absurd h (by simp [Bind.bind, Except.bind])
  | ok codes =>
    rw [hg] at h
    simp only [Bind.bind, Except.bind, pure, Except.pure, Except.ok.injEq] at h
    subst h
    exact annotate_length rows _ codes _ (by simp) (gen_codes_length rows 0 codes hg) (by simp)

section ClaimTheorems

attribute [local semireducible] Rat.add Rat.sub Rat.mul Rat.inv Rat.ofScientific

/-- Claim C1, as stated, is false: it quantifies over every non-empty
dataset, but on a non-empty dataset containing a row with a null height
`calculate_priority_score` raises a `ValueError` from `int(row['H'])` in
`generate_product_code` instead of returning a table at all (the failure
happens before the sort, so any sort function exhibits it). -/
theorem C1_counterexample :
    calculate_priority_score insertionSortDesc c1NullDf "BAZAN" "HONED" 8 (some 20) (some 30)
      = Except.error "cannot convert float NaN to integer" := by
  decide

/-- Claim C1 (amended): for every query and every non-empty dataset on
which the product-code annotation succeeds (all H/W/L non-null), and for
every sort function satisfying the documented contract of pandas
`sort_values` (a permutation of the rows, non-increasing in the key),
`calculate_priority_score` returns a table that is a permutation of the
annotated input rows — exactly as many rows as the input, none dropped or
added — sorted in descending order of `priority_score`.  The original
claim's stable tie-breaking is not part of the program's guarantee: the
call uses pandas' default `kind='quicksort'`, which is documented as
unstable, so no tie order is asserted here. -/
theorem C1_sorted_permutation (sort_values : List AnnRow → List AnnRow)
    (df : DataFrame) (stone_type processing_type : String)
    (height : ℚ) (width length : Option ℚ) (ann : List AnnRow)
    (hsort : sort_contract sort_values)
    (_hne : df.rows ≠ [])
    (hann : annotateDF df.rows stone_type processing_type height width length = Except.ok ann) :
    calculate_priority_score sort_values df stone_type processing_type height width length
        = Except.ok (mutate df ann, sort_values ann)
    ∧ List.Perm (sort_values ann) ann
    ∧ (sort_values ann).length = df.rows.length
    ∧ (sort_values ann).Pairwise (fun a b => b.priority_score ≤ a.priority_score) := by
  refine ⟨?_, (hsort ann).1, ?_, (hsort ann).2⟩
  · simp [calculate_priority_score, hann, Bind.bind, Except.bind, pure, Except.pure]
  · rw [(hsort ann).1.length_eq, annotateDF_length hann]

/-- Witness for `C1_sorted_permutation` at a two-row frame whose rows tie
at score 77, with the concrete contract-satisfying sort
`insertionSortDesc` standing in for the abstract sort. -/
theorem C1_sorted_permutation_witness :
    (c1Df.rows ≠ [])
    ∧ annotateDF c1Df.rows "GRANITE" "FLAMED" 8 (some 20) (some 30) = Except.ok c1Ann
    ∧ calculate_priority_score insertionSortDesc c1Df "GRANITE" "FLAMED" 8 (some 20) (some 30)
        = Except.ok (mutate c1Df c1Ann, insertionSortDesc c1Ann)
    ∧ List.Perm (insertionSortDesc c1Ann) c1Ann
    ∧ (insertionSortDesc c1Ann).length = c1Df.rows.length
    ∧ (insertionSortDesc c1Ann).Pairwise (fun a b => b.priority_score ≤ a.priority_score) := by
  have h := C1_sorted_permutation insertionSortDesc c1Df "GRANITE" "FLAMED" 8
    (some 20) (some 30) c1Ann insertionSortDesc_contract (by decide) (by decide)
  exact ⟨by decide, by decide, h.1, h.2.1, h.2.2.1, h.2.2.2⟩

/-- Claim C5: the code crashes where the claim (and the spec's
null-tolerance property) says it must not.  On a dataset whose single row
has a null height, `calculate_priority_score` raises the `ValueError` of
`int(row['H'])` inside `generate_product_code`; the scoring pass itself is
null-tolerant — `score_row` on that very row yields 62 (zero contribution
for the height factor only) — so the row would have scored fine. -/
theorem C5_null_height_raises (sort_values : List AnnRow → List AnnRow) :
    calculate_priority_score sort_values ⟨[c5Row], none, none, none⟩
        "GRANITE" "FLAMED" 8 (some 20) (some 30)
      = Except.error "cannot convert float NaN to integer"
    ∧ score_row (normalize_stone_name (some "GRANITE"))
        (get_stone_base_type (some (normalize_stone_name (some "GRANITE"))))
        (normalize_stone_name (some "FLAMED")) 8 (some 20) (some 30) c5Row = 62 := by
  constructor
  · have h : annotateDF [c5Row] "GRANITE" "FLAMED" 8 (some 20) (some 30)
        = Except.error "cannot convert float NaN to integer" := by decide
    simp [calculate_priority_score, h, Bind.bind, Except.bind]
  · decide

/-- Claim C6: on an empty input dataset `calculate_priority_score` returns
an empty result (empty rows, empty assigned columns, empty sorted output)
without error, for every query and every sort function meeting the pandas
contract (sorting an empty frame yields an empty frame); and
`calculate_prediction_results` applied to an empty subset returns null
rather than raising. -/
theorem C6_empty_inputs (sort_values : List AnnRow → List AnnRow)
    (stone_type processing_type : String) (height : ℚ) (width length : Option ℚ)
    (hsort : sort_contract sort_values) :
    calculate_priority_score sort_values ⟨[], none, none, none⟩
        stone_type processing_type height width length
      = Except.ok (⟨[], some [], some [], some []⟩, [])
    ∧ calculate_prediction_results [] = none := by
  have hnil : sort_values [] = [] := (hsort []).1.eq_nil
  constructor
  · simp only [calculate_priority_score, annotateDF, gen_codes, Bind.bind, Except.bind,
      pure, Except.pure, List.map_nil, annotate, mutate]
    rw [hnil]
  · rfl

/-- Witness for `C6_empty_inputs` with the concrete contract-satisfying
sort `insertionSortDesc`. -/
theorem C6_empty_inputs_witness :
    calculate_priority_score insertionSortDesc ⟨[], none, none, none⟩
        "GRANITE" "FLAMED" 8 (some 20) (some 30)
      = Except.ok (⟨[], some [], some [], some []⟩, [])
    ∧ calculate_prediction_results [] = none :=
  C6_empty_inputs insertionSortDesc "GRANITE" "FLAMED" 8 (some 20) (some 30)
    insertionSortDesc_contract

/-- Claim C8, as stated, is false: after a successful call the caller's
frame has had the `priority_score`, `product_code` and `stone_match_type`
columns assigned in place (`df['priority_score'] = ...`), so it is no
longer equal to the frame that was passed in. -/
theorem C8_counterexample :
    (calculate_priority_score insertionSortDesc c8Df
        "BLUESTONE" "POLISHED" 10 (some 15) (some 25)).map Prod.fst
      = Except.ok c8Mutated
    ∧ c8Mutated ≠ c8Df := by
  constructor
  · decide
  · decide

/-- Claim C8 (amended): `calculate_priority_score` does mutate the
caller's frame — it assigns the three annotation columns in place — but it
modifies no pre-existing cell (the `rows` are unchanged), and the sorted
table is returned separately. -/
theorem C8_mutates_in_place (sort_values : List AnnRow → List AnnRow)
    (df : DataFrame) (stone_type processing_type : String)
    (height : ℚ) (width length : Option ℚ) (ann : List AnnRow)
    (hann : annotateDF df.rows stone_type processing_type height width length = Except.ok ann) :
    calculate_priority_score sort_values df stone_type processing_type height width length
      = Except.ok (mutate df ann, sort_values ann)
    ∧ (mutate df ann).rows = df.rows
    ∧ (mutate df ann).priority_score ≠ none
    ∧ (mutate df ann).product_code ≠ none
    ∧ (mutate df ann).stone_match_type ≠ none := by
  refine ⟨?_, rfl, by simp [mutate], by simp [mutate], by simp [mutate]⟩
  simp [calculate_priority_score, hann, Bind.bind, Except.bind, pure, Except.pure]

/-- Witness for `C8_mutates_in_place` at a concrete one-row frame, with
the concrete contract-satisfying sort `insertionSortDesc`. -/
theorem C8_mutates_in_place_witness :
    annotateDF c8Df.rows "BLUESTONE" "POLISHED" 10 (some 15) (some 25) = Except.ok c8Ann
    ∧ (calculate_priority_score insertionSortDesc c8Df
          "BLUESTONE" "POLISHED" 10 (some 15) (some 25)
        = Except.ok (mutate c8Df c8Ann, insertionSortDesc c8Ann)
      ∧ (mutate c8Df c8Ann).rows = c8Df.rows
      ∧ (mutate c8Df c8Ann).priority_score ≠ none
      ∧ (mutate c8Df c8Ann).product_code ≠ none
      ∧ (mutate c8Df c8Ann).stone_match_type ≠ none) := by
  exact ⟨by decide,
    C8_mutates_in_place insertionSortDesc c8Df "BLUESTONE" "POLISHED" 10
      (some 15) (some 25) c8Ann (by decide)⟩

/-- Claim C7: a candidate whose normalized stone type, normalized
processing method and (within 0.01) height all match the query receives
the maximum contribution from each of those three factors: 30 + 20 + 15 =
65, on top of whatever the width/length factors add. -/
theorem C7_exact_match_max (stone_type processing_type : String) (height : ℚ)
    (width length : Option ℚ) (r : Row) (hv : ℚ)
    (hs : normalize_stone_name r.loai_da = normalize_stone_name (some stone_type))
    (hp : normalize_stone_name r.gia_cong = normalize_stone_name (some processing_type))
    (hH : r.H = some hv) (hd : |hv - height| < 1/100) :
    stone_score (normalize_stone_name (some stone_type))
        (get_stone_base_type (some (normalize_stone_name (some stone_type)))) r.loai_da = 30
    ∧ processing_score (normalize_stone_name (some processing_type)) r.gia_cong = 20
    ∧ height_score height r.H = 15
    ∧ score_row (normalize_stone_name (some stone_type))
        (get_stone_base_type (some (normalize_stone_name (some stone_type))))
        (normalize_stone_name (some processing_type)) height width length r
      = 65 + width_score width r.W + length_score length r.L := by
  have h1 : stone_score (normalize_stone_name (some stone_type))
      (get_stone_base_type (some (normalize_stone_name (some stone_type)))) r.loai_da = 30 := by
    unfold stone_score
    rw [if_pos hs]
  have h2 : processing_score (normalize_stone_name (some processing_type)) r.gia_cong = 20 := by
    unfold processing_score
    rw [if_pos hp]
  have h3 : height_score height r.H = 15 := by
    rw [hH]
    simp only [height_score]
    rw [if_pos hd]
  refine ⟨h1, h2, h3, ?_⟩
  unfold score_row
  rw [h1, h2, h3]

/-- Witness for `C7_exact_match_max`: a row matching the query
`("GRANITE WHITE", "FLAMED", 8)` only up to normalization. -/
theorem C7_exact_match_max_witness :
    (normalize_stone_name c7Row.loai_da = normalize_stone_name (some "GRANITE WHITE")
      ∧ normalize_stone_name c7Row.gia_cong = normalize_stone_name (some "FLAMED")
      ∧ c7Row.H = some 8 ∧ |(8 : ℚ) - 8| < 1/100)
    ∧ stone_score (normalize_stone_name (some "GRANITE WHITE"))
        (get_stone_base_type (some (normalize_stone_name (some "GRANITE WHITE")))) c7Row.loai_da = 30
    ∧ processing_score (normalize_stone_name (some "FLAMED")) c7Row.gia_cong = 20
    ∧ height_score 8 c7Row.H = 15
    ∧ score_row (normalize_stone_name (some "GRANITE WHITE"))
        (get_stone_base_type (some (normalize_stone_name (some "GRANITE WHITE"))))
        (normalize_stone_name (some "FLAMED")) 8 none none c7Row
      = 65 + width_score none c7Row.W + length_score none c7Row.L := by
  have h := C7_exact_match_max "GRANITE WHITE" "FLAMED" 8 none none c7Row 8
    (by decide) (by decide) (by decide) (by decide)
  exact ⟨⟨by decide, by decide, by decide, by decide⟩, h⟩

theorem stone_score_bounds (input_stone input_base : String) (x : Option String) :
    20 ≤ stone_score input_stone input_base x ∧ stone_score input_stone input_base x ≤ 30 := by
  unfold stone_score
  split_ifs <;> omega

theorem processing_score_bounds (input_processing : String) (x : Option String) :
    15 ≤ processing_score input_processing x ∧ processing_score input_processing x ≤ 20 := by
  unfold processing_score
  split_ifs <;> omega

theorem height_score_le (height : ℚ) (v : Option ℚ) : height_score height v ≤ 15 := by
  cases v with
  | none => simp [height_score]
  | some h =>
    simp only [height_score]
    split_ifs <;> omega

theorem width_score_le (width : Option ℚ) (v : Option ℚ) : width_score width v ≤ 9 := by
  cases width with
  | none => simp [width_score]
  | some w =>
    cases v with
    | none => simp [width_score]
    | some x =>
      simp only [width_score]
      split_ifs <;> omega

theorem length_score_le (length : Option ℚ) (v : Option ℚ) : length_score length v ≤ 3 := by
  cases length with
  | none => simp [length_score]
  | some l =>
    cases v with
    | none => simp [length_score]
    | some x =>
      simp only [length_score]
      split_ifs <;> omega

/-- Claim C10: for every row and every query supplying width and length,
the total score lies in [35, 77]: the stone factor contributes at least 20
and at most 30, the processing factor at least 15 and at most 20, and the
remaining factors are bounded by 15, 9 and 3; in particular every score is
strictly positive. -/
theorem C10_score_bounds (stone_type processing_type : String) (height w l : ℚ) (r : Row) :
    20 ≤ stone_score (normalize_stone_name (some stone_type))
        (get_stone_base_type (some (normalize_stone_name (some stone_type)))) r.loai_da
    ∧ 15 ≤ processing_score (normalize_stone_name (some processing_type)) r.gia_cong
    ∧ 35 ≤ score_row (normalize_stone_name (some stone_type))
        (get_stone_base_type (some (normalize_stone_name (some stone_type))))
        (normalize_stone_name (some processing_type)) height (some w) (some l) r
    ∧ score_row (normalize_stone_name (some stone_type))
        (get_stone_base_type (some (normalize_stone_name (some stone_type))))
        (normalize_stone_name (some processing_type)) height (some w) (some l) r ≤ 77
    ∧ 0 < score_row (normalize_stone_name (some stone_type))
        (get_stone_base_type (some (normalize_stone_name (some stone_type))))
        (normalize_stone_name (some processing_type)) height (some w) (some l) r := by
  have hs := stone_score_bounds (normalize_stone_name (some stone_type))
    (get_stone_base_type (some (normalize_stone_name (some stone_type)))) r.loai_da
  have hp := processing_score_bounds (normalize_stone_name (some processing_type)) r.gia_cong
  have hh := height_score_le height r.H
  have hw := width_score_le (some w) r.W
  have hl := length_score_le (some l) r.L
  refine ⟨hs.1, hp.1, ?_, ?_, ?_⟩ <;> (unfold score_row; omega)

/-- Claim C4, as stated, is false: the claim's first tier is "effectively
equal (< 0.01 cm)", but in `src/app7.py` a row 0.05 cm away from the query
height (difference 161/20 − 8) already receives the top-tier contribution
(30), different from the within-1-cm contribution received 0.5 cm away
(17/2 − 8), although the claim's tiers put both rows in the same
(within 1 cm) tier; and in `src/utils/scoring.py` a row 3 cm away receives
contribution 0, contradicting the claimed never-zero floor. -/
theorem C4_counterexample :
    claim_height_tier |(161/20 : ℚ) - 8| = claim_height_tier |(17/2 : ℚ) - 8|
    ∧ app7_height_score (some (161/20)) 8 ≠ app7_height_score (some (17/2)) 8
    ∧ height_score 8 (some 11) = 0 := by
  decide

/-- Claim C4 (amended): in `src/app7.py` the height factor has five
mutually exclusive tiers of absolute difference — below 0.1 (not 0.01),
within 1 cm, within 2 cm, within 5 cm, and a strictly positive floor of 5
points beyond — while in `src/utils/scoring.py` it has only three tiers
(below 0.01, within 1 cm, within 2 cm) and contributes exactly zero beyond
2 cm. -/
theorem C4_height_tiers (v height : ℚ) :
    (app7_height_score (some v) height = 30 ↔ |v - height| < 1/10)
    ∧ (app7_height_score (some v) height = 25 ↔ 1/10 ≤ |v - height| ∧ |v - height| ≤ 1)
    ∧ (app7_height_score (some v) height = 20 ↔ 1 < |v - height| ∧ |v - height| ≤ 2)
    ∧ (app7_height_score (some v) height = 15 ↔ 2 < |v - height| ∧ |v - height| ≤ 5)
    ∧ (app7_height_score (some v) height = 5 ↔ 5 < |v - height|)
    ∧ 0 < app7_height_score (some v) height
    ∧ (height_score height (some v) = 15 ↔ |v - height| < 1/100)
    ∧ (height_score height (some v) = 12 ↔ 1/100 ≤ |v - height| ∧ |v - height| ≤ 1)
    ∧ (height_score height (some v) = 9 ↔ 1 < |v - height| ∧ |v - height| ≤ 2)
    ∧ (height_score height (some v) = 0 ↔ 2 < |v - height|) := by
  simp only [app7_height_score, height_score]
  split_ifs <;>
    refine ⟨?_, ?_, ?_, ?_, ?_, ?_, ?_, ?_, ?_, ?_⟩ <;>
    norm_num <;>
    first
      | linarith
      | (constructor <;> linarith)
      | (constructor <;> intro <;> first | linarith | (constructor <;> linarith))
      | (intro <;> linarith)

set_option maxHeartbeats 2000000 in
/-- Claim C9: for numeric width/length values,
`calculate_lwDistance_score w l 12` is a non-increasing step function of
the absolute difference between length and width; it is the full 12 points
when the difference is below 1, and a strictly positive floor of
12 × 0.05 = 0.6 for every difference above 100. -/
theorem C9_lw_distance_step (w1 l1 w2 l2 : ℚ) (hd : |l1 - w1| ≤ |l2 - w2|) :
    calculate_lwDistance_score w2 l2 12 ≤ calculate_lwDistance_score w1 l1 12
    ∧ (|l1 - w1| < 1 → calculate_lwDistance_score w1 l1 12 = 12)
    ∧ (100 < |l2 - w2| →
        calculate_lwDistance_score w2 l2 12 = 12 * (5/100) ∧ (0 : ℚ) < 12 * (5/100)) := by
  refine ⟨?_, ?_, ?_⟩
  · simp only [calculate_lwDistance_score]
    split_ifs <;> linarith
  · intro h1
    simp only [calculate_lwDistance_score]
    rw [if_pos h1]
  · intro h2
    have hns : ¬ |l2 - w2| < 1 := by linarith
    have h5 : ¬ |l2 - w2| ≤ 5 := by linarith
    have h10 : ¬ |l2 - w2| ≤ 10 := by linarith
    have h20 : ¬ |l2 - w2| ≤ 20 := by linarith
    have h30 : ¬ |l2 - w2| ≤ 30 := by linarith
    have h50 : ¬ |l2 - w2| ≤ 50 := by linarith
    have h75 : ¬ |l2 - w2| ≤ 75 := by linarith
    have h100 : ¬ |l2 - w2| ≤ 100 := by linarith
    simp only [calculate_lwDistance_score]
    rw [if_neg hns, if_neg h5, if_neg h10, if_neg h20, if_neg h30, if_neg h50,
      if_neg h75, if_neg h100]
    norm_num

/-- Witness for `C9_lw_distance_step`: a square candidate (difference 0)
against a slab with difference 200. -/
theorem C9_lw_distance_step_witness :
    (|(5 : ℚ) - 5| ≤ |(200 : ℚ) - 0|)
    ∧ calculate_lwDistance_score 0 200 12 ≤ calculate_lwDistance_score 5 5 12
    ∧ (|(5 : ℚ) - 5| < 1 → calculate_lwDistance_score 5 5 12 = 12)
    ∧ (100 < |(200 : ℚ) - 0| →
        calculate_lwDistance_score 0 200 12 = 12 * (5/100) ∧ (0 : ℚ) < 12 * (5/100)) := by
  have h := C9_lw_distance_step 5 5 0 200 (by norm_num)
  exact ⟨by norm_num, h.1, h.2.1, h.2.2⟩

/-- Claim C2: whenever at least 4 rows of the scored subset have non-null
priority score, width, length and price, a model is fitted on exactly
those rows, and the price reported for the query equals the fitted model
applied to (maximum priority score of the subset, query width, query
length) plus the fixed constant offset (7 × 10) / 0.8 = 87.5, which does
not depend on the data.  The fit itself is `sklearn`'s ordinary
least-squares `LinearRegression`, abstracted here as an arbitrary `fit`
function: the conclusion holds for every such function. -/
theorem C2_regression_prediction (fit : List AnnRow → LinearModel3) (filtered : List AnnRow)
    (w l : ℚ) (hw : w ≠ 0) (hl : l ≠ 0) (hclean : 4 ≤ (cleanRows filtered).length) :
    fitted_model fit filtered = some (fit (cleanRows filtered))
    ∧ render_prediction fit filtered (some w) (some l)
        = PredictionOutcome.regression
            (predict3 (fit (cleanRows filtered)) (max_priority filtered : ℚ) w l + 175/2)
    ∧ ∀ p : ℚ, apply_price_transformation p = p + 175/2 := by
  have hlenf : 4 ≤ filtered.length := by
    have := List.length_filter_le (fun a => a.row.W.isSome && a.row.L.isSome
      && a.row.usd_m3.isSome) filtered
    simp only [cleanRows] at hclean
    omega
  have hne : cleanRows filtered ≠ [] := by
    intro hnil
    rw [hnil] at hclean
    simp at hclean
  obtain ⟨a, ha⟩ := List.exists_mem_of_ne_nil _ hne
  have hma : a ∈ filtered ∧ (a.row.W.isSome = true ∧ a.row.L.isSome = true)
      ∧ a.row.usd_m3.isSome = true := by
    simpa [cleanRows] using ha
  have hsome : a.row.usd_m3.isSome = true := hma.2.2
  have hall : filtered.all (fun a => a.row.usd_m3.isNone) = false := by
    by_contra hcon
    rw [Bool.not_eq_false] at hcon
    have hnone := List.all_eq_true.mp hcon a hma.1
    simp only [Option.isNone_iff_eq_none] at hnone
    rw [hnone] at hsome
    simp at hsome
  have hcond : 1 < filtered.length ∧ filtered.all (fun a => a.row.usd_m3.isNone) = false
      ∧ 3 < (cleanRows filtered).length := ⟨by omega, hall, by omega⟩
  have hfit : fitted_model fit filtered = some (fit (cleanRows filtered)) := by
    unfold fitted_model
    rw [if_pos hcond]
  refine ⟨hfit, ?_, ?_⟩
  · simp only [render_prediction, hfit]
    have htw : truthyQ (some w) = true := by simp [truthyQ, hw]
    have htl : truthyQ (some l) = true := by simp [truthyQ, hl]
    rw [htw, htl]
    simp only [Bool.and_self, if_true, Option.getD_some]
    unfold apply_price_transformation
    norm_num
  · intro p
    unfold apply_price_transformation
    norm_num

/-- Witness for `C2_regression_prediction`: four clean scored rows with
maximal score 70 and the identity-on-score stand-in fit. -/
theorem C2_regression_prediction_witness :
    ((10 : ℚ) ≠ 0)
    ∧ 4 ≤ (cleanRows c2Rows).length
    ∧ fitted_model c2Fit c2Rows = some (c2Fit (cleanRows c2Rows))
    ∧ render_prediction c2Fit c2Rows (some 10) (some 10)
        = PredictionOutcome.regression
            (predict3 (c2Fit (cleanRows c2Rows)) (max_priority c2Rows : ℚ) 10 10 + 175/2)
    ∧ apply_price_transformation 1 = 1 + 175/2 := by
  have h := C2_regression_prediction c2Fit c2Rows 10 10 (by norm_num) (by norm_num) (by decide)
  exact ⟨by norm_num, by decide, h.1, h.2.1, h.2.2 1⟩

/-- Claim C3: `calculate_prediction_results` returns null exactly when no
row of the subset has a non-null price; otherwise it returns the mean,
minimum and maximum of the non-null prices and confidence
`min(95, 10 × count)`; the spec's 3-row example yields
(avg 11, min 10, max 12, confidence 20); confidence is non-decreasing in
the number of valid prices and never exceeds 95. -/
theorem C3_statistical_fallback (rows rowsB : List Row) :
    (calculate_prediction_results rows = none ↔ rows.filterMap Row.usd_m3 = [])
    ∧ (∀ res, calculate_prediction_results rows = some res →
        res.avg_price = (rows.filterMap Row.usd_m3).sum / ((rows.filterMap Row.usd_m3).length : ℚ)
        ∧ res.min_price = listMin (rows.filterMap Row.usd_m3)
        ∧ res.max_price = listMax (rows.filterMap Row.usd_m3)
        ∧ res.confidence = min 95 ((rows.filterMap Row.usd_m3).length * 10)
        ∧ res.confidence ≤ 95)
    ∧ (∀ resA resB, calculate_prediction_results rows = some resA →
        calculate_prediction_results rowsB = some resB →
        (rows.filterMap Row.usd_m3).length ≤ (rowsB.filterMap Row.usd_m3).length →
        resA.confidence ≤ resB.confidence)
    ∧ calculate_prediction_results c3Rows = some ⟨11, 10, 12, 20⟩ := by
  have hconf : ∀ (rs : List Row) res, calculate_prediction_results rs = some res →
      res.confidence = min 95 ((rs.filterMap Row.usd_m3).length * 10) := by
    intro rs res h
    simp only [calculate_prediction_results] at h
    split_ifs at h with h0
    simp only [Option.some.injEq] at h
    rw [← h]
  refine ⟨?_, ?_, ?_, ?_⟩
  · simp only [calculate_prediction_results]
    split_ifs with h0
    · simp [List.length_eq_zero.mp h0]
    · constructor
      · intro h
        exact absurd h (by simp)
      · intro h
        rw [h] at h0
        simp at h0
  · intro res h
    have hc := hconf rows res h
    simp only [calculate_prediction_results] at h
    split_ifs at h with h0
    simp only [Option.some.injEq] at h
    rw [← h]
    exact ⟨rfl, rfl, rfl, rfl, Nat.min_le_left _ _⟩
  · intro resA resB hA hB hle
    have hcA := hconf rows resA hA
    have hcB := hconf rowsB resB hB
    omega
  · decide

/-- Witness for `C3_statistical_fallback`: the spec's 3-row example against
a 1-row subset, exercising the null test, the example and monotonicity. -/
theorem C3_statistical_fallback_witness :
    (calculate_prediction_results c3RowsOne = some ⟨7, 7, 7, 10⟩)
    ∧ calculate_prediction_results c3Rows = some ⟨11, 10, 12, 20⟩
    ∧ ((c3RowsOne.filterMap Row.usd_m3).length ≤ (c3Rows.filterMap Row.usd_m3).length)
    ∧ (PredictionResults.confidence ⟨7, 7, 7, 10⟩ ≤ PredictionResults.confidence ⟨11, 10, 12, 20⟩)
    ∧ (calculate_prediction_results ([] : List Row) = none
        ↔ ([] : List Row).filterMap Row.usd_m3 = []) := by
  have h := C3_statistical_fallback c3RowsOne c3Rows
  have hmono := h.2.2.1 ⟨7, 7, 7, 10⟩ ⟨11, 10, 12, 20⟩ (by decide) (by decide) (by decide)
  have hempty := (C3_statistical_fallback ([] : List Row) ([] : List Row)).1
  exact ⟨by decide, by decide, by decide, hmono, hempty⟩

end ClaimTheorems

end StoneApp
